import Mathlib

/-
Verification of the TTS caching service (src/main.py).

The Python source is shallowly embedded below.  Pure helpers
(`compute_cache_filename`, the media-type allow-list check) become Lean
functions; the filesystem under the `static` folder becomes an explicit
association list from paths to byte lists; the Deepgram and Gemini SDK
clients are external collaborators and are modelled as function parameters
returning `Except` (a failed provider call raises and writes nothing, a
successful one yields the full payload, matching the SDK's buffered
`save`).  Machine integers inside SHA-256 are `Nat` reduced mod 2^32.
-/

namespace TTS

/-! ## SHA-256, as used by Python `hashlib.sha256` in `compute_cache_filename` -/

/-- Truncate to a 32-bit word, the implicit width of every SHA-256 operation. -/
def w32 (n : Nat) : Nat := n % 4294967296

/-- 32-bit right rotation. -/
def rotr (n x : Nat) : Nat := w32 ((x >>> n) ||| (x <<< (32 - n)))

/-- 32-bit bitwise complement. -/
def notW (x : Nat) : Nat := x ^^^ 4294967295

def ch (x y z : Nat) : Nat := (x &&& y) ^^^ (notW x &&& z)

def maj (x y z : Nat) : Nat := (x &&& y) ^^^ (x &&& z) ^^^ (y &&& z)

def bigSigma0 (x : Nat) : Nat := rotr 2 x ^^^ rotr 13 x ^^^ rotr 22 x

def bigSigma1 (x : Nat) : Nat := rotr 6 x ^^^ rotr 11 x ^^^ rotr 25 x

def smallSigma0 (x : Nat) : Nat := rotr 7 x ^^^ rotr 18 x ^^^ (x >>> 3)

def smallSigma1 (x : Nat) : Nat := rotr 17 x ^^^ rotr 19 x ^^^ (x >>> 10)

/-- The 64 SHA-256 round constants. -/
def sha256K : List Nat :=
  [1116352408, 1899447441, 3049323471, 3921009573, 961987163,
   1508970993, 2453635748, 2870763221, 3624381080, 310598401,
   607225278, 1426881987, 1925078388, 2162078206, 2614888103,
   3248222580, 3835390401, 4022224774, 264347078, 604807628,
   770255983, 1249150122, 1555081692, 1996064986, 2554220882,
   2821834349, 2952996808, 3210313671, 3336571891, 3584528711,
   113926993, 338241895, 666307205, 773529912, 1294757372,
   1396182291, 1695183700, 1986661051, 2177026350, 2456956037,
   2730485921, 2820302411, 3259730800, 3345764771, 3516065817,
   3600352804, 4094571909, 275423344, 430227734, 506948616,
   659060556, 883997877, 958139571, 1322822218, 1537002063,
   1747873779, 1955562222, 2024104815, 2227730452, 2361852424,
   2428436474, 2756734187, 3204031479, 3329325298]

/-- The initial SHA-256 hash value. -/
def sha256H0 : List Nat :=
  [1779033703, 3144134277, 1013904242, 2773480762,
   1359893119, 2600822924, 528734635, 1541459225]

/-- UTF-8 encoding of one Unicode code point, as in Python `str.encode()`. -/
def utf8EncodeChar (n : Nat) : List Nat :=
  if n < 128 then [n]
  else if n < 2048 then [192 + n / 64, 128 + n % 64]
  else if n < 65536 then [224 + n / 4096, 128 + (n / 64) % 64, 128 + n % 64]
  else [240 + n / 262144, 128 + (n / 4096) % 64, 128 + (n / 64) % 64, 128 + n % 64]

/-- UTF-8 encoding of a string to bytes, as in Python `str.encode()`. -/
def utf8Encode (s : String) : List Nat :=
  (s.data.map (fun c => utf8EncodeChar c.toNat)).flatten

/-- Big-endian byte decomposition of `n` into `k` bytes. -/
def toBytesBE : Nat → Nat → List Nat
  | 0, _ => []
  | k + 1, n => toBytesBE k (n / 256) ++ [n % 256]

/-- Big-endian composition of a byte list into one number. -/
def fromBytesBE (bs : List Nat) : Nat :=
  bs.foldl (fun acc b => acc * 256 + b) 0

/-- SHA-256 padding: append 0x80, zero bytes, and the 64-bit big-endian bit length. -/
def sha256Pad (msg : List Nat) : List Nat :=
  let l := msg.length
  let zeros := (64 - (l + 9) % 64) % 64
  msg ++ [128] ++ List.replicate zeros 0 ++ toBytesBE 8 (8 * l)

/-- Split a list into consecutive chunks of size `n` (fuel-driven). -/
def chunksOfAux (n : Nat) : Nat → List Nat → List (List Nat)
  | 0, _ => []
  | _ + 1, [] => []
  | fuel + 1, l => l.take n :: chunksOfAux n fuel (l.drop n)

def chunksOf (n : Nat) (l : List Nat) : List (List Nat) :=
  chunksOfAux n l.length l

/-- One message-schedule extension step: append word `t` computed from
words `t-2`, `t-7`, `t-15`, `t-16`. -/
def sha256ExtendStep (ws : List Nat) : List Nat :=
  let n := ws.length
  let v2 := ws.getD (n - 2) 0
  let v7 := ws.getD (n - 7) 0
  let v15 := ws.getD (n - 15) 0
  let v16 := ws.getD (n - 16) 0
  ws ++ [w32 (smallSigma1 v2 + v7 + smallSigma0 v15 + v16)]

def iterN (f : List Nat → List Nat) : Nat → List Nat → List Nat
  | 0, a => a
  | k + 1, a => iterN f k (f a)

/-- The 64-word message schedule of one 64-byte block. -/
def sha256Schedule (block : List Nat) : List Nat :=
  iterN sha256ExtendStep 48 ((chunksOf 4 block).map fromBytesBE)

/-- One SHA-256 compression round on the working variables. -/
def sha256Round (st : List Nat) (kw : Nat × Nat) : List Nat :=
  match st with
  | [a, b, c, d, e, f, g, h] =>
    let t1 := w32 (h + bigSigma1 e + ch e f g + kw.1 + kw.2)
    let t2 := w32 (bigSigma0 a + maj a b c)
    [w32 (t1 + t2), a, b, c, w32 (d + t1), e, f, g]
  | other => other

/-- Process one 64-byte block: 64 rounds, then add into the running hash. -/
def sha256Block (hs : List Nat) (block : List Nat) : List Nat :=
  let final := (sha256K.zip (sha256Schedule block)).foldl sha256Round hs
  (hs.zip final).map (fun p => w32 (p.1 + p.2))

/-- SHA-256 digest of a byte list, as a list of 32 bytes. -/
def sha256Bytes (msg : List Nat) : List Nat :=
  (((chunksOf 64 (sha256Pad msg)).foldl sha256Block sha256H0).map (toBytesBE 4)).flatten

def hexDigit (n : Nat) : Char :=
  if n < 10 then Char.ofNat (48 + n) else Char.ofNat (87 + n)

/-- Lowercase hexadecimal rendering of a byte list, as `hexdigest()` yields. -/
def toHex (bs : List Nat) : String :=
  String.mk ((bs.map (fun b => [hexDigit (b / 16), hexDigit (b % 16)])).flatten)

/-- `hashlib.sha256(s.encode()).hexdigest()` for a string `s`. -/
def sha256HexOfString (s : String) : String :=
  toHex (sha256Bytes (utf8Encode s))

/-! ## The service itself (src/main.py) -/

/-- `audio_folder = "static"` from main.py line 25. -/
def audio_folder : String := "static"

/-- `os.path.join(dir, file)` for the two-component case used in main.py. -/
def path_join (dir file : String) : String := dir ++ "/" ++ file

/-- `request.url_for("static", path=filename)`: the absolute URL of a file
under the static mount, for a given request base URL. -/
def url_for_static (baseUrl filename : String) : String :=
  baseUrl ++ "/static/" ++ filename

/-- The pydantic request body model `TTSRequest` (main.py lines 30-32):
`text` is a required string, `model` defaults to `"aura-2-thalia-en"`. -/
structure TTSRequest where
  text : String
  model : String := "aura-2-thalia-en"
deriving DecidableEq, Repr

/-- Pydantic validation of a `/tts` JSON body: the `text` field is required
(missing field rejected); `model` is optional with the default voice; no
other constraint (no emptiness or length check) exists on `text`. -/
def parseTTSRequest (text : Option String) (model : Option String) :
    Option TTSRequest :=
  match text with
  | none => none
  | some t => some { text := t, model := model.getD "aura-2-thalia-en" }

/-- The filesystem under the working directory, as a path-to-bytes
association list (later bindings shadowed by earlier ones, as in an
overwrite-free trace). -/
def Store : Type := List (String × List Nat)

def Store.lookup : Store → String → Option (List Nat)
  | [], _ => none
  | (k, v) :: rest, key => if key = k then some v else Store.lookup rest key

/-- Writing the byte payload at a path (the effect of the SDK `save`). -/
def Store.insert (st : Store) (k : String) (v : List Nat) : Store :=
  (k, v) :: st

/-- The external Deepgram speak client: `synthesize(text, model)` yields the
full audio payload or raises with a message. -/
def Provider : Type := String → String → Except String (List Nat)

/-- The JSON body returned by `/tts` on success. -/
structure TTSResponse where
  link : String
  cached : Bool
deriving DecidableEq, Repr

/-- An `HTTPException(status_code, detail)`. -/
structure HTTPError where
  status : Nat
  detail : String
deriving DecidableEq, Repr

/-- Observable outcome of one `/tts` request: the HTTP result, the
filesystem afterwards, and how many provider calls were made. -/
structure TTSOutcome where
  result : Except HTTPError TTSResponse
  store : Store
  providerCalls : Nat

/-- The hash input `f"{model}:{text}"` built inside `compute_cache_filename`
(main.py line 42): the model, the `':'` separator, then the text. -/
def hash_input (text model : String) : String := model ++ ":" ++ text

/-- `compute_cache_filename` (main.py lines 40-43):
SHA-256 hex digest of `f"{model}:{text}"` with `".mp3"` appended. -/
def compute_cache_filename (text model : String) : String :=
  sha256HexOfString (hash_input text model) ++ ".mp3"

/-- `generate_and_save_tts` (main.py lines 45-54): invoke the provider and
save the audio at `file_path`.  The SDK `save` buffers the whole response
before writing, so a provider error writes nothing. -/
def generate_and_save_tts (provider : Provider) (text model file_path : String)
    (store : Store) : Except String Store :=
  match provider text model with
  | .ok bytes => .ok (store.insert file_path bytes)
  | .error e => .error e

/-- The `/tts` handler `text_to_speech` (main.py lines 56-87): compute the
cache filename, path and static URL; return the cached link if the file
exists; otherwise generate, save and return the fresh link; any exception
becomes `HTTPException(500, str(e))`. -/
def text_to_speech (provider : Provider) (req : TTSRequest) (baseUrl : String)
    (store : Store) : TTSOutcome :=
  let filename := compute_cache_filename req.text req.model
  let file_path := path_join audio_folder filename
  let file_url := url_for_static baseUrl filename
  if (store.lookup file_path).isSome then
    { result := .ok { link := file_url, cached := true },
      store := store, providerCalls := 0 }
  else
    match generate_and_save_tts provider req.text req.model file_path store with
    | .ok store2 =>
        { result := .ok { link := file_url, cached := false },
          store := store2, providerCalls := 1 }
    | .error e =>
        { result := .error { status := 500, detail := e },
          store := store, providerCalls := 1 }

/-! ## The transcription path (main.py lines 90-152) -/

/-- A Python exception as observed by `except` clauses: either an
`HTTPException` or a plain exception carrying its message. -/
inductive PyExc where
  | http (status : Nat) (detail : String)
  | runtime (msg : String)
deriving DecidableEq, Repr

/-- Python `str(e)`: Starlette renders `HTTPException` as
`"{status_code}: {detail}"`; a `RuntimeError` renders as its message. -/
def PyExc.str : PyExc → String
  | .http s d => toString s ++ ": " ++ d
  | .runtime m => m

/-- The external Gemini client call: transcribe audio bytes of a MIME type,
yielding the transcript or raising with a message. -/
def Transcriber : Type := List Nat → String → Except String String

/-- `transcribe_audio_directly` (main.py lines 96-134): call the client and
wrap any failure in `RuntimeError(f"Transcription failed: {str(e)}")`. -/
def transcribe_audio_directly (client : Transcriber) (audio_bytes : List Nat)
    (mime_type : String) : Except PyExc String :=
  match client audio_bytes mime_type with
  | .ok txt => .ok txt
  | .error e => .error (.runtime ("Transcription failed: " ++ e))

/-- Observable outcome of one `/transcribe/` request (the wall-clock
`time_taken` field is not modelled). -/
structure TranscribeOutcome where
  result : Except HTTPError String
  transcriberCalls : Nat

/-- The `/transcribe/` handler `transcribe_audio` (main.py lines 136-152).
The whole body sits in one `try`: a disallowed content type raises
`HTTPException(400, ...)` INSIDE the try, and `except Exception` catches it
(FastAPI `HTTPException` subclasses `Exception`) and re-raises
`HTTPException(500, "Error during transcription: " + str(e))`. -/
def transcribe_audio (client : Transcriber) (content_type : String)
    (audio_bytes : List Nat) : TranscribeOutcome :=
  let body : Except PyExc String × Nat :=
    if ["audio/wav", "audio/x-wav", "audio/mpeg"].contains content_type then
      match transcribe_audio_directly client audio_bytes content_type with
      | .ok txt => (.ok txt, 1)
      | .error e => (.error e, 1)
    else
      (.error (.http 400 "Only .wav and .mp3 files are supported."), 0)
  match body with
  | (.ok txt, n) => { result := .ok txt, transcriberCalls := n }
  | (.error e, n) =>
      { result := .error { status := 500,
                           detail := "Error during transcription: " ++ e.str },
        transcriberCalls := n }

/-! ## Startup (main.py lines 34-38 and 90-94) -/

/-- The process environment, `os.getenv`. -/
def Env : Type := String → Option String

/-- Python truthiness of `os.getenv`: `None` and `""` are falsy. -/
def truthy : Option String → Bool
  | none => false
  | some s => !s.isEmpty

/-- Python `a or b` on optional strings: `a` when truthy, else `b`. -/
def pyOr (a b : Option String) : Option String :=
  if truthy a then a else b

/-- `genai.Client(api_key=...)` key resolution, modelled from the
google-genai SDK the source imports: the explicit `api_key` argument, or
the `GOOGLE_API_KEY` environment variable, or the `GEMINI_API_KEY`
environment variable; when none resolves (and no Vertex arguments are
given, as at main.py line 94) the constructor raises
`ValueError("Missing key inputs argument!...")`. -/
def genai_Client (env : Env) (api_key : Option String) : Except String String :=
  let resolved := pyOr (pyOr api_key (env "GOOGLE_API_KEY")) (env "GEMINI_API_KEY")
  if truthy resolved then .ok (resolved.getD "")
  else .error "Missing key inputs argument!"

/-- Module import time: `DEEPGRAM_API_KEY` is read and checked for
truthiness, raising `RuntimeError` when missing or empty (lines 35-37);
`google_api_key_gemini` is read with no check in the repository's own code
(line 91) and handed to the Gemini client constructor (line 94), which
itself raises `ValueError` when no key resolves.  Either exception aborts
module import, so no request processing occurs. -/
def startup (env : Env) : Except String (String × String) :=
  let dg := env "DEEPGRAM_API_KEY"
  if truthy dg then
    match genai_Client env (env "google_api_key_gemini") with
    | .ok gk => .ok (dg.getD "", gk)
    | .error e => .error e
  else .error "DEEPGRAM_API_KEY environment variable is not set."

/-- An environment with the Deepgram key set and the Gemini key absent. -/
def env0 : Env := fun k => if k = "DEEPGRAM_API_KEY" then some "dg-key" else none

/-! ## Interleaved executions of `/tts`

FastAPI runs one task per request and `text_to_speech` awaits the provider
call in a thread pool, so the existence check and the generate-and-save can
interleave across requests.  Each request is split at its await point into
two atomic steps: (1) compute the filename and check existence, (2) call
the provider and save.  A schedule picks which request steps next.  There
is no lock anywhere in the source, so no step blocks another. -/

/-- The control point of one in-flight `/tts` request for a fixed body. -/
inductive ReqPhase where
  | start
  | generating (file_path file_url : String)
  | done (result : Except HTTPError TTSResponse)
deriving Repr

/-- Global state of an interleaved execution: the shared filesystem, each
request's control point, and the total number of provider invocations. -/
structure ConcState where
  store : Store
  phases : List ReqPhase
  providerCalls : Nat

/-- One atomic step of request `i`, following `text_to_speech` exactly:
before the await it computes the filename and checks existence (hit returns
`cached := true` at once); at the await it calls the provider and either
saves the payload (`cached := false`) or turns the error into a 500. -/
def concStep (provider : Provider) (req : TTSRequest) (baseUrl : String)
    (s : ConcState) (i : Nat) : ConcState :=
  match s.phases.get? i with
  | none => s
  | some .start =>
      let filename := compute_cache_filename req.text req.model
      let file_path := path_join audio_folder filename
      let file_url := url_for_static baseUrl filename
      if (s.store.lookup file_path).isSome then
        { s with phases :=
            s.phases.set i (.done (.ok { link := file_url, cached := true })) }
      else
        { s with phases := s.phases.set i (.generating file_path file_url) }
  | some (.generating fp fu) =>
      match provider req.text req.model with
      | .ok bytes =>
          { store := s.store.insert fp bytes,
            phases := s.phases.set i (.done (.ok { link := fu, cached := false })),
            providerCalls := s.providerCalls + 1 }
      | .error e =>
          { s with
            phases := s.phases.set i (.done (.error { status := 500, detail := e })),
            providerCalls := s.providerCalls + 1 }
  | some (.done _) => s

/-- Run a schedule of request indices. -/
def concRun (provider : Provider) (req : TTSRequest) (baseUrl : String)
    (s : ConcState) (sched : List Nat) : ConcState :=
  sched.foldl (concStep provider req baseUrl) s

/-- `n` concurrent requests for the same body against an empty store. -/
def concInit (n : Nat) : ConcState :=
  { store := [], phases := List.replicate n .start, providerCalls := 0 }

/-- A provider that always succeeds with a one-byte payload. -/
def provider0 : Provider := fun _ _ => .ok [0]

/-- A provider that always raises. -/
def providerFail : Provider := fun _ _ => .error "Deepgram error"

/-- A transcription client that always succeeds with an empty transcript. -/
def client0 : Transcriber := fun _ _ => .ok ""

/-- The request of the spec scenario. -/
def req0 : TTSRequest := { text := "Hello world", model := "aura-2-thalia-en" }

/-- What any reachable control point of a same-key execution may look like:
a generating request holds exactly the key-derived path and URL, and a
finished request holds an ok response carrying that URL. -/
def phaseOK (fp fu : String) : ReqPhase → Prop
  | .start => True
  | .generating p u => p = fp ∧ u = fu
  | .done r => ∃ c, r = .ok { link := fu, cached := c }

/-- Reachability invariant of interleaved same-key executions with a
provider that deterministically yields `bytes`: the shared entry at the
key's path is absent or exactly `bytes`, and every request control point is
well-formed per `phaseOK`. -/
def concInv (fp fu : String) (bytes : List Nat) (s : ConcState) : Prop :=
  (s.store.lookup fp = none ∨ s.store.lookup fp = some bytes) ∧
  ∀ ph ∈ s.phases, phaseOK fp fu ph

end TTS

/-! ## General lemmas about the embedding -/

set_option maxRecDepth 4000 in
/-- Cross-validation of the SHA-256 embedding: the digest of the scenario's
hash input agrees with `hashlib.sha256` on the same bytes. -/
theorem sha256_reference_digest :
    TTS.sha256HexOfString "aura-2-thalia-en:Hello world" =
      "4cf99f7ca3e8099de6309473103bac91dd99f7e23311997d1eaf480a79db0226" := by
  decide

theorem store_lookup_insert (st : TTS.Store) (k k2 : String) (v : List Nat) :
    (st.insert k v).lookup k2 = if k2 = k then some v else st.lookup k2 := rfl

theorem string_data_append (s t : String) : (s ++ t).data = s.data ++ t.data := by
  cases s
  cases t
  rfl

theorem string_eq_of_data {s t : String} (h : s.data = t.data) : s = t := by
  cases s
  cases t
  exact congrArg String.mk h

/-- Splitting at the first occurrence of a marker element is unambiguous. -/
theorem append_cons_inj {α : Type} (c : α) :
    ∀ l1 l2 r1 r2 : List α, c ∉ l1 → c ∉ l2 →
      l1 ++ c :: r1 = l2 ++ c :: r2 → l1 = l2 ∧ r1 = r2 := by
  intro l1
  induction l1 with
  | nil =>
      intro l2 r1 r2 _ h2 he
      cases l2 with
      | nil => simpa using he
      | cons b bs =>
          simp only [List.nil_append, List.cons_append, List.cons.injEq] at he
          exact absurd (he.1 ▸ List.mem_cons_self b bs) h2
  | cons a as ih =>
      intro l2 r1 r2 h1 h2 he
      cases l2 with
      | nil =>
          simp only [List.nil_append, List.cons_append, List.cons.injEq] at he
          exact absurd (he.1 ▸ List.mem_cons_self a as) h1
      | cons b bs =>
          simp only [List.cons_append, List.cons.injEq] at he
          have h1' : c ∉ as := fun hm => h1 (List.mem_cons_of_mem a hm)
          have h2' : c ∉ bs := fun hm => h2 (List.mem_cons_of_mem b hm)
          obtain ⟨hl, hr⟩ := ih bs r1 r2 h1' h2' he.2
          exact ⟨by rw [he.1, hl], hr⟩

/-! ## Claims -/

set_option maxRecDepth 8000 in
/-- C2: the cache storage identifier is the lowercase hex SHA-256 digest of
`model ++ ":" ++ text` (model first, then the separator, then the text)
with `".mp3"` appended; in particular the scenario request
`("Hello world", "aura-2-thalia-en")` is stored under
`sha256("aura-2-thalia-en:Hello world").mp3` in the static folder. -/
theorem C2_cache_key_scheme :
    (∀ text model : String,
      TTS.compute_cache_filename text model =
        TTS.sha256HexOfString (model ++ ":" ++ text) ++ ".mp3") ∧
    TTS.compute_cache_filename "Hello world" "aura-2-thalia-en" =
      "4cf99f7ca3e8099de6309473103bac91dd99f7e23311997d1eaf480a79db0226.mp3" ∧
    (TTS.text_to_speech TTS.provider0 TTS.req0 "http://host" []).store =
      [("static/4cf99f7ca3e8099de6309473103bac91dd99f7e23311997d1eaf480a79db0226.mp3",
        [0])] := by
  refine ⟨fun _ _ => rfl, by decide, by rfl⟩

/-- C1: on a fresh key the `/tts` handler calls the provider exactly once,
creates the entry, and answers `cached = false`; afterwards, any call for
the same `(text, model)` against a store holding the entry answers
`cached = true` with the identical link, leaves the store untouched, and
makes no provider call. -/
theorem C1_fresh_miss_then_cached_hits (provider : TTS.Provider)
    (text model baseUrl : String) (st : TTS.Store) (bytes : List Nat)
    (hp : provider text model = .ok bytes)
    (habs : st.lookup
      (TTS.path_join TTS.audio_folder (TTS.compute_cache_filename text model)) = none) :
    (TTS.text_to_speech provider ⟨text, model⟩ baseUrl st).result =
      .ok ⟨TTS.url_for_static baseUrl (TTS.compute_cache_filename text model), false⟩ ∧
    (TTS.text_to_speech provider ⟨text, model⟩ baseUrl st).providerCalls = 1 ∧
    (TTS.text_to_speech provider ⟨text, model⟩ baseUrl st).store.lookup
      (TTS.path_join TTS.audio_folder (TTS.compute_cache_filename text model)) =
        some bytes ∧
    ∀ st2 : TTS.Store,
      (st2.lookup
        (TTS.path_join TTS.audio_folder (TTS.compute_cache_filename text model))).isSome →
      (TTS.text_to_speech provider ⟨text, model⟩ baseUrl st2).result =
        .ok ⟨TTS.url_for_static baseUrl (TTS.compute_cache_filename text model), true⟩ ∧
      (TTS.text_to_speech provider ⟨text, model⟩ baseUrl st2).providerCalls = 0 ∧
      (TTS.text_to_speech provider ⟨text, model⟩ baseUrl st2).store = st2 := by
  refine ⟨?_, ?_, ?_, ?_⟩
  · simp [TTS.text_to_speech, TTS.generate_and_save_tts, hp, habs]
  · simp [TTS.text_to_speech, TTS.generate_and_save_tts, hp, habs]
  · simp [TTS.text_to_speech, TTS.generate_and_save_tts, hp, habs, TTS.Store.insert,
      TTS.Store.lookup]
  · intro st2 hs
    refine ⟨?_, ?_, ?_⟩ <;> simp [TTS.text_to_speech, hs]

set_option maxRecDepth 8000 in
/-- Evaluation of `C1_fresh_miss_then_cached_hits` on the always-ok
provider, the key for `("hi", "aura-2-thalia-en")`, and the empty store. -/
theorem C1_fresh_miss_then_cached_hits_eval :
    (TTS.text_to_speech TTS.provider0 ⟨"hi", "aura-2-thalia-en"⟩ "http://h" []).result =
      .ok ⟨TTS.url_for_static "http://h" (TTS.compute_cache_filename "hi" "aura-2-thalia-en"),
        false⟩ ∧
    (TTS.text_to_speech TTS.provider0 ⟨"hi", "aura-2-thalia-en"⟩ "http://h" []).providerCalls = 1 ∧
    (TTS.text_to_speech TTS.provider0 ⟨"hi", "aura-2-thalia-en"⟩ "http://h" []).store.lookup
      (TTS.path_join TTS.audio_folder (TTS.compute_cache_filename "hi" "aura-2-thalia-en")) =
        some [0] ∧
    ∀ st2 : TTS.Store,
      (st2.lookup
        (TTS.path_join TTS.audio_folder
          (TTS.compute_cache_filename "hi" "aura-2-thalia-en"))).isSome →
      (TTS.text_to_speech TTS.provider0 ⟨"hi", "aura-2-thalia-en"⟩ "http://h" st2).result =
        .ok ⟨TTS.url_for_static "http://h" (TTS.compute_cache_filename "hi" "aura-2-thalia-en"),
          true⟩ ∧
      (TTS.text_to_speech TTS.provider0 ⟨"hi", "aura-2-thalia-en"⟩ "http://h" st2).providerCalls = 0 ∧
      (TTS.text_to_speech TTS.provider0 ⟨"hi", "aura-2-thalia-en"⟩ "http://h" st2).store = st2 :=
  C1_fresh_miss_then_cached_hits TTS.provider0 "hi" "aura-2-thalia-en" "http://h" [] [0]
    rfl rfl

/-- C3: when the key is fresh and the provider raises, the `/tts` handler
answers `HTTPException(500, str(e))` with the underlying message as detail,
and the filesystem is unchanged — in particular no file (partial or
otherwise) exists at the final storage identifier afterwards. -/
theorem C3_provider_error_leaves_no_artifact (provider : TTS.Provider)
    (text model baseUrl msg : String) (st : TTS.Store)
    (hp : provider text model = .error msg)
    (habs : st.lookup
      (TTS.path_join TTS.audio_folder (TTS.compute_cache_filename text model)) = none) :
    (TTS.text_to_speech provider ⟨text, model⟩ baseUrl st).result =
      .error ⟨500, msg⟩ ∧
    (TTS.text_to_speech provider ⟨text, model⟩ baseUrl st).store = st ∧
    (TTS.text_to_speech provider ⟨text, model⟩ baseUrl st).store.lookup
      (TTS.path_join TTS.audio_folder (TTS.compute_cache_filename text model)) = none := by
  refine ⟨?_, ?_, ?_⟩ <;>
    simp [TTS.text_to_speech, TTS.generate_and_save_tts, hp, habs]

set_option maxRecDepth 8000 in
/-- Evaluation of `C3_provider_error_leaves_no_artifact` on the failing
provider and the empty store. -/
theorem C3_provider_error_leaves_no_artifact_eval :
    (TTS.text_to_speech TTS.providerFail ⟨"hi", "aura-2-thalia-en"⟩ "http://h" []).result =
      .error ⟨500, "Deepgram error"⟩ ∧
    (TTS.text_to_speech TTS.providerFail ⟨"hi", "aura-2-thalia-en"⟩ "http://h" []).store = [] ∧
    (TTS.text_to_speech TTS.providerFail ⟨"hi", "aura-2-thalia-en"⟩ "http://h" []).store.lookup
      (TTS.path_join TTS.audio_folder (TTS.compute_cache_filename "hi" "aura-2-thalia-en")) =
        none :=
  C3_provider_error_leaves_no_artifact TTS.providerFail "hi" "aura-2-thalia-en" "http://h"
    "Deepgram error" [] rfl rfl

/-- C7: a `/tts` request never updates a present cache entry in place and
never deletes one: every path bound in the store before the request is
bound to the identical bytes afterwards, so the set of present keys only
grows (the transcription path never touches the store at all — its handler
does not take it). -/
theorem C7_cache_entries_persist (provider : TTS.Provider) (req : TTS.TTSRequest)
    (baseUrl : String) (st : TTS.Store) (k : String) (v : List Nat)
    (hk : st.lookup k = some v) :
    (TTS.text_to_speech provider req baseUrl st).store.lookup k = some v := by
  unfold TTS.text_to_speech
  by_cases hex : (st.lookup
      (TTS.path_join TTS.audio_folder (TTS.compute_cache_filename req.text req.model))).isSome
  · simpa [hex] using hk
  · cases hp : provider req.text req.model with
    | ok bytes =>
        have hne : k ≠ TTS.path_join TTS.audio_folder
            (TTS.compute_cache_filename req.text req.model) := by
          intro he
          rw [← he, hk] at hex
          exact hex rfl
        simp [hex, TTS.generate_and_save_tts, hp, TTS.Store.insert, TTS.Store.lookup, hne, hk]
    | error e => simp [hex, TTS.generate_and_save_tts, hp, hk]

set_option maxRecDepth 8000 in
/-- Evaluation of `C7_cache_entries_persist` on a store holding one entry
at a different path. -/
theorem C7_cache_entries_persist_eval :
    (TTS.text_to_speech TTS.provider0 TTS.req0 "http://h"
      [("static/other.mp3", [7])]).store.lookup "static/other.mp3" = some [7] :=
  C7_cache_entries_persist TTS.provider0 TTS.req0 "http://h"
    [("static/other.mp3", [7])] "static/other.mp3" [7] rfl

/-- C9: the `/tts` body model accepts `text = ""` (the only validation on
`text` is that the field is present and a string), and an empty-text
request goes through the ordinary hit/miss path on the key computed for
`(model, "")`: a miss makes exactly one provider call, a hit answers the
cached link for that key with no provider call. -/
theorem C9_empty_text_processed_normally (m baseUrl : String)
    (provider : TTS.Provider) (st : TTS.Store) :
    TTS.parseTTSRequest (some "") none =
      some { text := "", model := "aura-2-thalia-en" } ∧
    (st.lookup (TTS.path_join TTS.audio_folder (TTS.compute_cache_filename "" m)) = none →
      (TTS.text_to_speech provider ⟨"", m⟩ baseUrl st).providerCalls = 1) ∧
    ((st.lookup (TTS.path_join TTS.audio_folder (TTS.compute_cache_filename "" m))).isSome →
      (TTS.text_to_speech provider ⟨"", m⟩ baseUrl st).result =
        .ok ⟨TTS.url_for_static baseUrl (TTS.compute_cache_filename "" m), true⟩ ∧
      (TTS.text_to_speech provider ⟨"", m⟩ baseUrl st).providerCalls = 0) := by
  refine ⟨rfl, ?_, ?_⟩
  · intro h
    cases hp : provider "" m with
    | ok bytes => simp [TTS.text_to_speech, TTS.generate_and_save_tts, h, hp]
    | error e => simp [TTS.text_to_speech, TTS.generate_and_save_tts, h, hp]
  · intro h
    exact ⟨by simp [TTS.text_to_speech, h], by simp [TTS.text_to_speech, h]⟩

set_option maxRecDepth 8000 in
/-- Evaluation of `C9_empty_text_processed_normally`: an empty-text request
against the empty store makes exactly one provider call. -/
theorem C9_empty_text_processed_normally_eval :
    (TTS.text_to_speech TTS.provider0 ⟨"", "aura-2-thalia-en"⟩ "http://h" []).providerCalls = 1 :=
  (C9_empty_text_processed_normally "aura-2-thalia-en" "http://h" TTS.provider0 []).2.1 rfl

/-- C10: the link in a successful `/tts` answer is a function of the
request body and base URL alone: for the same `(text, model, baseUrl)`, two
successful calls against arbitrary stores and providers (one may be a hit,
the other a miss) carry the identical link, namely the static URL of the
key-derived filename. -/
theorem C10_link_independent_of_cache_state (text model baseUrl : String)
    (p1 p2 : TTS.Provider) (st1 st2 : TTS.Store) (r1 r2 : TTS.TTSResponse)
    (h1 : (TTS.text_to_speech p1 ⟨text, model⟩ baseUrl st1).result = .ok r1)
    (h2 : (TTS.text_to_speech p2 ⟨text, model⟩ baseUrl st2).result = .ok r2) :
    r1.link = r2.link ∧
    r1.link = TTS.url_for_static baseUrl (TTS.compute_cache_filename text model) := by
  have key : ∀ (p : TTS.Provider) (st : TTS.Store) (r : TTS.TTSResponse),
      (TTS.text_to_speech p ⟨text, model⟩ baseUrl st).result = .ok r →
      r.link = TTS.url_for_static baseUrl (TTS.compute_cache_filename text model) := by
    intro p st r h
    unfold TTS.text_to_speech at h
    by_cases hex : (st.lookup
        (TTS.path_join TTS.audio_folder (TTS.compute_cache_filename text model))).isSome
    · simp [hex] at h
      rw [← h]
    · cases hp : p text model with
      | ok bytes =>
          simp [hex, TTS.generate_and_save_tts, hp] at h
          rw [← h]
      | error e => simp [hex, TTS.generate_and_save_tts, hp] at h
  have k1 := key p1 st1 r1 h1
  have k2 := key p2 st2 r2 h2
  exact ⟨k1.trans k2.symm, k1⟩

set_option maxRecDepth 8000 in
/-- Evaluation of `C10_link_independent_of_cache_state`: a miss against the
empty store and a hit against a store holding the entry yield one link. -/
theorem C10_link_independent_of_cache_state_eval :
    (TTS.url_for_static "http://h" (TTS.compute_cache_filename "hi" "aura-2-thalia-en") =
      TTS.url_for_static "http://h" (TTS.compute_cache_filename "hi" "aura-2-thalia-en")) ∧
    (TTS.url_for_static "http://h" (TTS.compute_cache_filename "hi" "aura-2-thalia-en") =
      TTS.url_for_static "http://h" (TTS.compute_cache_filename "hi" "aura-2-thalia-en")) :=
  C10_link_independent_of_cache_state "hi" "aura-2-thalia-en" "http://h"
    TTS.provider0 TTS.provider0 []
    [(TTS.path_join TTS.audio_folder (TTS.compute_cache_filename "hi" "aura-2-thalia-en"), [0])]
    ⟨TTS.url_for_static "http://h" (TTS.compute_cache_filename "hi" "aura-2-thalia-en"), false⟩
    ⟨TTS.url_for_static "http://h" (TTS.compute_cache_filename "hi" "aura-2-thalia-en"), true⟩
    rfl rfl

/-- C4 counterexample: the claim fails twice on the code.  First,
`audio/x-wav` is INSIDE the configured allow-list (main.py line 140), so a
request declaring it is not rejected at all — the transcription client is
invoked.  Second, a genuinely disallowed type such as `video/mp4` is
rejected with HTTP 500, not 400: the `HTTPException(400, ...)` raised
inside the handler's `try` is caught by its own `except Exception` and
re-raised as a 500. -/
theorem C4_counterexample_xwav_allowed_and_500 :
    (["audio/wav", "audio/x-wav", "audio/mpeg"].contains "audio/x-wav" = true) ∧
    (TTS.transcribe_audio TTS.client0 "audio/x-wav" []).transcriberCalls = 1 ∧
    (TTS.transcribe_audio TTS.client0 "video/mp4" []).result =
      .error ⟨500,
        "Error during transcription: 400: Only .wav and .mp3 files are supported."⟩ ∧
    (TTS.transcribe_audio TTS.client0 "video/mp4" []).result ≠ .error ⟨400,
        "Only .wav and .mp3 files are supported."⟩ := by
  refine ⟨rfl, rfl, rfl, ?_⟩
  intro h
  have h1 : (TTS.transcribe_audio TTS.client0 "video/mp4" []).result =
      Except.error ⟨500,
        "Error during transcription: 400: Only .wav and .mp3 files are supported."⟩ := rfl
  rw [h1] at h
  injection h with h2
  have h3 := congrArg TTS.HTTPError.status h2
  exact absurd h3 (by decide)

/-- C4 amended: a transcription request whose declared content type is
outside the allow-list `["audio/wav", "audio/x-wav", "audio/mpeg"]` (note
`audio/x-wav` is inside it) is rejected before any transcription-client
call, but with an HTTP 500 — the internal 400 is swallowed by the
handler's own catch-all — whose detail wraps the 400's message. -/
theorem C4_disallowed_type_rejected_500_no_call (ct : String)
    (hct : (["audio/wav", "audio/x-wav", "audio/mpeg"].contains ct) = false)
    (client : TTS.Transcriber) (audio_bytes : List Nat) :
    (TTS.transcribe_audio client ct audio_bytes).result =
      .error ⟨500,
        "Error during transcription: 400: Only .wav and .mp3 files are supported."⟩ ∧
    (TTS.transcribe_audio client ct audio_bytes).transcriberCalls = 0 := by
  have hmem : ¬(ct = "audio/wav" ∨ ct = "audio/x-wav" ∨ ct = "audio/mpeg") := by
    simpa using hct
  refine ⟨?_, ?_⟩ <;> simp [TTS.transcribe_audio, hmem, TTS.PyExc.str]
  rfl

/-- Evaluation of `C4_disallowed_type_rejected_500_no_call` at
`video/mp4`. -/
theorem C4_disallowed_type_rejected_500_no_call_eval :
    (TTS.transcribe_audio TTS.client0 "video/mp4" [1, 2]).result =
      .error ⟨500,
        "Error during transcription: 400: Only .wav and .mp3 files are supported."⟩ ∧
    (TTS.transcribe_audio TTS.client0 "video/mp4" [1, 2]).transcriberCalls = 0 :=
  C4_disallowed_type_rejected_500_no_call "video/mp4" rfl TTS.client0 [1, 2]

set_option maxRecDepth 8000 in
/-- C6 counterexample: the pre-hash encoding `model ++ ":" ++ text` is not
injective, because a model identifier may itself contain the separator:
the distinct pairs (model `"a:b"`, text `"c"`) and (model `"a"`, text
`"b:c"`) encode to the same string `"a:b:c"`, so `compute_cache_filename`
maps both to the identical cache filename. -/
theorem C6_counterexample_separator_in_model :
    ((("a:b" : String), ("c" : String)) ≠ (("a" : String), ("b:c" : String))) ∧
    TTS.hash_input "c" "a:b" = TTS.hash_input "b:c" "a" ∧
    TTS.compute_cache_filename "c" "a:b" = TTS.compute_cache_filename "b:c" "a" := by
  refine ⟨by decide, by decide, by decide⟩

/-- C6 amended: the encoding is injective as long as model identifiers do
not contain the separator `':'`: two pairs with colon-free models and any
texts that differ somewhere produce different hash inputs (and identical
pairs trivially produce identical keys).  When a model may contain `':'`,
distinct pairs can collide, as the counterexample shows. -/
theorem C6_encoding_injective_for_colon_free_models (m1 t1 m2 t2 : String)
    (h1 : ':' ∉ m1.data) (h2 : ':' ∉ m2.data)
    (hne : (m1, t1) ≠ (m2, t2)) :
    TTS.hash_input t1 m1 ≠ TTS.hash_input t2 m2 := by
  intro he
  apply hne
  have hd : m1.data ++ ':' :: t1.data = m2.data ++ ':' :: t2.data := by
    have h0 := congrArg String.data he
    rw [TTS.hash_input, TTS.hash_input, string_data_append, string_data_append,
        string_data_append, string_data_append] at h0
    simpa using h0
  obtain ⟨hm, ht⟩ := append_cons_inj ':' m1.data m2.data t1.data t2.data h1 h2 hd
  rw [string_eq_of_data hm, string_eq_of_data ht]

/-- Evaluation of `C6_encoding_injective_for_colon_free_models` on two
requests differing only in their text. -/
theorem C6_encoding_injective_for_colon_free_models_eval :
    TTS.hash_input "Hello world" "aura-2-thalia-en" ≠
      TTS.hash_input "Hello" "aura-2-thalia-en" :=
  C6_encoding_injective_for_colon_free_models "aura-2-thalia-en" "Hello world"
    "aura-2-thalia-en" "Hello" (by decide) (by decide) (by decide)

/-- C8: a missing required provider credential is startup-fatal.  An
absent or empty `DEEPGRAM_API_KEY` makes module import raise
`RuntimeError`; with the Deepgram key present but no Gemini credential
resolving (`google_api_key_gemini` absent or empty and neither SDK
fallback variable set), the `genai.Client` constructor raises
`ValueError` at import.  Either way startup yields an error, so no request
processing occurs; conversely startup succeeds only when the Deepgram key
is truthy and some Gemini credential source is truthy. -/
theorem C8_missing_credential_startup_fatal (env : TTS.Env) :
    (TTS.truthy (env "DEEPGRAM_API_KEY") = false →
      TTS.startup env = .error "DEEPGRAM_API_KEY environment variable is not set.") ∧
    (TTS.truthy (env "DEEPGRAM_API_KEY") = true →
     TTS.truthy (env "google_api_key_gemini") = false →
     TTS.truthy (env "GOOGLE_API_KEY") = false →
     TTS.truthy (env "GEMINI_API_KEY") = false →
      TTS.startup env = .error "Missing key inputs argument!") ∧
    (∀ keys, TTS.startup env = .ok keys →
      TTS.truthy (env "DEEPGRAM_API_KEY") = true ∧
      (TTS.truthy (env "google_api_key_gemini") = true ∨
       TTS.truthy (env "GOOGLE_API_KEY") = true ∨
       TTS.truthy (env "GEMINI_API_KEY") = true)) := by
  refine ⟨?_, ?_, ?_⟩
  · intro h
    simp [TTS.startup, h]
  · intro hdg hg1 hg2 hg3
    simp [TTS.startup, TTS.genai_Client, TTS.pyOr, hdg, hg1, hg2, hg3]
  · intro keys hok
    by_cases hdg : TTS.truthy (env "DEEPGRAM_API_KEY") = true
    · refine ⟨hdg, ?_⟩
      by_cases hg1 : TTS.truthy (env "google_api_key_gemini") = true
      · exact Or.inl hg1
      · by_cases hg2 : TTS.truthy (env "GOOGLE_API_KEY") = true
        · exact Or.inr (Or.inl hg2)
        · by_cases hg3 : TTS.truthy (env "GEMINI_API_KEY") = true
          · exact Or.inr (Or.inr hg3)
          · rw [Bool.not_eq_true] at hg1 hg2 hg3
            simp [TTS.startup, TTS.genai_Client, TTS.pyOr, hdg, hg1, hg2, hg3] at hok
    · rw [Bool.not_eq_true] at hdg
      simp [TTS.startup, hdg] at hok

/-- Evaluation of `C8_missing_credential_startup_fatal` on `env0`, where
the Deepgram key is set but no Gemini credential source is: startup fails
fatally with the client constructor's error. -/
theorem C8_missing_credential_startup_fatal_eval :
    TTS.startup TTS.env0 = .error "Missing key inputs argument!" :=
  (C8_missing_credential_startup_fatal TTS.env0).2.1 rfl rfl rfl rfl

/-- One interleaving step preserves the same-key execution invariant when
the provider deterministically succeeds with `bytes`. -/
theorem concStep_preserves_inv (provider : TTS.Provider) (req : TTS.TTSRequest)
    (baseUrl : String) (bytes : List Nat)
    (hp : provider req.text req.model = .ok bytes)
    (s : TTS.ConcState) (i : Nat)
    (h : TTS.concInv
      (TTS.path_join TTS.audio_folder (TTS.compute_cache_filename req.text req.model))
      (TTS.url_for_static baseUrl (TTS.compute_cache_filename req.text req.model))
      bytes s) :
    TTS.concInv
      (TTS.path_join TTS.audio_folder (TTS.compute_cache_filename req.text req.model))
      (TTS.url_for_static baseUrl (TTS.compute_cache_filename req.text req.model))
      bytes (TTS.concStep provider req baseUrl s i) := by
  unfold TTS.concStep
  cases hg : s.phases.get? i with
  | none => exact h
  | some ph =>
    have hph := h.2 ph (List.get?_mem hg)
    cases ph with
    | start =>
        by_cases hex : (s.store.lookup
            (TTS.path_join TTS.audio_folder
              (TTS.compute_cache_filename req.text req.model))).isSome
        · simp only [hex, if_true]
          refine ⟨h.1, ?_⟩
          intro ph2 hm
          rcases List.mem_or_eq_of_mem_set hm with hin | heq
          · exact h.2 ph2 hin
          · rw [heq]
            exact ⟨true, rfl⟩
        · simp only [hex, if_false, Bool.false_eq_true]
          refine ⟨h.1, ?_⟩
          intro ph2 hm
          rcases List.mem_or_eq_of_mem_set hm with hin | heq
          · exact h.2 ph2 hin
          · rw [heq]
            exact ⟨rfl, rfl⟩
    | generating fp2 fu2 =>
        obtain ⟨hfp, hfu⟩ := hph
        rw [hp]
        constructor
        · rw [hfp, store_lookup_insert]
          simp
        · intro ph2 hm
          rcases List.mem_or_eq_of_mem_set hm with hin | heq
          · exact h.2 ph2 hin
          · rw [heq]
            exact ⟨false, by rw [hfu]⟩
    | done r => exact h

/-- Every schedule of interleaved steps preserves the invariant. -/
theorem concRun_preserves_inv (provider : TTS.Provider) (req : TTS.TTSRequest)
    (baseUrl : String) (bytes : List Nat)
    (hp : provider req.text req.model = .ok bytes) (sched : List Nat) :
    ∀ s : TTS.ConcState,
      TTS.concInv
        (TTS.path_join TTS.audio_folder (TTS.compute_cache_filename req.text req.model))
        (TTS.url_for_static baseUrl (TTS.compute_cache_filename req.text req.model))
        bytes s →
      TTS.concInv
        (TTS.path_join TTS.audio_folder (TTS.compute_cache_filename req.text req.model))
        (TTS.url_for_static baseUrl (TTS.compute_cache_filename req.text req.model))
        bytes (TTS.concRun provider req baseUrl s sched) := by
  induction sched with
  | nil => intro s h; exact h
  | cons a t ih =>
      intro s h
      exact ih _ (concStep_preserves_inv provider req baseUrl bytes hp s a h)

set_option maxRecDepth 8000 in
/-- C5 counterexample: the handler has no per-key coordination, so the
strict single-flight property fails.  Two concurrent requests for the same
`(text, model)` interleaved as check-check-generate-generate both pass the
existence check before either has written, and the provider is invoked
twice for one key. -/
theorem C5_counterexample_duplicate_generation :
    (TTS.concRun TTS.provider0 TTS.req0 "http://host" (TTS.concInit 2)
      [0, 1, 0, 1]).providerCalls = 2 := by
  rfl

/-- C5 amended: without coordination the provider may be invoked more than
once per key under concurrency, but all same-key requests still converge on
one final artifact: with a deterministic succeeding provider, after ANY
schedule over `n` concurrent requests from an empty store, the entry at the
key's path is absent or holds exactly the provider's bytes (byte-identical
content, no corruption), and every completed request got an ok response
carrying the one key-derived link. -/
theorem C5_no_singleflight_but_convergent (provider : TTS.Provider)
    (req : TTS.TTSRequest) (baseUrl : String) (bytes : List Nat) (n : Nat)
    (sched : List Nat)
    (hp : provider req.text req.model = .ok bytes) :
    ((TTS.concRun provider req baseUrl (TTS.concInit n) sched).store.lookup
        (TTS.path_join TTS.audio_folder
          (TTS.compute_cache_filename req.text req.model)) = none ∨
     (TTS.concRun provider req baseUrl (TTS.concInit n) sched).store.lookup
        (TTS.path_join TTS.audio_folder
          (TTS.compute_cache_filename req.text req.model)) = some bytes) ∧
    ∀ ph ∈ (TTS.concRun provider req baseUrl (TTS.concInit n) sched).phases,
      ∀ r, ph = TTS.ReqPhase.done r →
        ∃ c, r = .ok ⟨TTS.url_for_static baseUrl
          (TTS.compute_cache_filename req.text req.model), c⟩ := by
  have hinit : TTS.concInv
      (TTS.path_join TTS.audio_folder (TTS.compute_cache_filename req.text req.model))
      (TTS.url_for_static baseUrl (TTS.compute_cache_filename req.text req.model))
      bytes (TTS.concInit n) := by
    refine ⟨Or.inl rfl, ?_⟩
    intro ph hm
    rw [List.eq_of_mem_replicate hm]
    trivial
  have hfin := concRun_preserves_inv provider req baseUrl bytes hp sched
    (TTS.concInit n) hinit
  refine ⟨hfin.1, ?_⟩
  intro ph hm r hr
  have hok := hfin.2 ph hm
  rw [hr] at hok
  exact hok

set_option maxRecDepth 8000 in
/-- Evaluation of `C5_no_singleflight_but_convergent` on the duplicate
generation schedule: the final artifact is the provider's payload. -/
theorem C5_no_singleflight_but_convergent_eval :
    (TTS.concRun TTS.provider0 TTS.req0 "http://host" (TTS.concInit 2)
        [0, 1, 0, 1]).store.lookup
      (TTS.path_join TTS.audio_folder
        (TTS.compute_cache_filename TTS.req0.text TTS.req0.model)) = none ∨
    (TTS.concRun TTS.provider0 TTS.req0 "http://host" (TTS.concInit 2)
        [0, 1, 0, 1]).store.lookup
      (TTS.path_join TTS.audio_folder
        (TTS.compute_cache_filename TTS.req0.text TTS.req0.model)) = some [0] :=
  (C5_no_singleflight_but_convergent TTS.provider0 TTS.req0 "http://host" [0] 2
    [0, 1, 0, 1] rfl).1
